import Mathlib

/-!
Verification development for the windows-volume-limiter repository.

The repository's visible sources are the two frontend variants
`src/src/App.tsx` and `src/unnamed/part_000` (a React `App` component
talking to the engine over `invoke`/`listen`).  The volume-enforcement
engine itself (settings store, device registry, volume enforcer, device
watcher, engine facade) is not part of the visible sources; it is
modelled here from the specification, with each such definition marked
`Modelled from the spec:` in its doc comment.

JavaScript numbers are IEEE-754 binary64 values; arithmetic on them is
embedded exactly as rationals together with an explicit
round-to-nearest-even rounding step (`roundB64`), which for the
magnitudes used in this file (normal range, no overflow, no subnormals)
agrees with binary64 arithmetic.
-/

/-- Number of binary digits of a natural number (`0` has `0` digits),
with explicit fuel so the definition is structurally recursive.  For
`n < 2 ^ fuel` the fuel never runs out. -/
def natBits : Nat → Nat → Nat
  | 0, _ => 0
  | fuel + 1, n => if n = 0 then 0 else natBits fuel (n / 2) + 1

/-- Round the fraction `num / den` (with `den ≠ 0`) to the nearest
natural number, ties to even. -/
def rne (num den : Nat) : Nat :=
  let q := num / den
  let r := num % den
  if 2 * r < den then q
  else if den < 2 * r then q + 1
  else if q % 2 = 0 then q else q + 1

/-- Decide whether `2 ^ e ≤ num / den` for a positive fraction. -/
def pow2LE (e : Int) (num den : Nat) : Bool :=
  if 0 ≤ e then decide (2 ^ e.toNat * den ≤ num)
  else decide (den ≤ num * 2 ^ (-e).toNat)

/-- Largest `e : Int` with `2 ^ e ≤ num / den`, for a positive
fraction `num / den`. -/
def floorLog2 (num den : Nat) : Int :=
  let e0 : Int := (natBits 200 num : Int) - (natBits 200 den : Int)
  if pow2LE e0 num den then e0 else e0 - 1

/-- Round a rational to the exact value of the nearest IEEE-754
binary64 number (round to nearest, ties to even), for the normal range;
non-positive inputs are only used at `0` here and are passed through as
`0`.  This models the result of a JavaScript arithmetic operation whose
exact value is `q`. -/
def roundB64 (q : ℚ) : ℚ :=
  if q ≤ 0 then 0
  else
    let num := q.num.toNat
    let den := q.den
    let e := floorLog2 num den
    if e ≤ 52 then
      let s := (52 - e).toNat
      mkRat (rne (num * 2 ^ s) den) (2 ^ s)
    else
      let s := (e - 52).toNat
      mkRat (rne num (den * 2 ^ s) * 2 ^ s) 1

/-- JavaScript division `a / b` on binary64 numbers.  The exact
quotient is formed with `Rat.divInt` so that it evaluates by kernel
reduction; `jsDiv_eq` shows it is the rounding of the exact `a / b`. -/
def jsDiv (a b : ℚ) : ℚ := roundB64 (Rat.divInt (a.num * b.den) (a.den * b.num))

/-- JavaScript multiplication `a * b` on binary64 numbers.  The exact
product is formed with `Rat.divInt` so that it evaluates by kernel
reduction; `jsMul_eq` shows it is the rounding of the exact `a * b`. -/
def jsMul (a b : ℚ) : ℚ := roundB64 (Rat.divInt (a.num * b.num) (a.den * b.den))

/-- Dividing and then rounding: `jsDiv` is binary64 rounding applied to
the exact quotient. -/
theorem jsDiv_eq (a b : ℚ) (hb : b ≠ 0) : jsDiv a b = roundB64 (a / b) := by
  have h1 : ((a.den : ℕ) : ℚ) ≠ 0 := Nat.cast_ne_zero.mpr a.den_nz
  have h2 : ((b.num : ℤ) : ℚ) ≠ 0 := Int.cast_ne_zero.mpr (Rat.num_ne_zero.mpr hb)
  have ha : (a.num : ℚ) = a * a.den := (div_eq_iff h1).mp (Rat.num_div_den a)
  have hb2 : (b.num : ℚ) = b * b.den :=
    (div_eq_iff (Nat.cast_ne_zero.mpr b.den_nz)).mp (Rat.num_div_den b)
  unfold jsDiv
  rw [Rat.divInt_eq_div]
  push_cast
  congr 1
  rw [div_eq_div_iff (mul_ne_zero h1 h2) hb, ha, hb2]
  ring

/-- Multiplying and then rounding: `jsMul` is binary64 rounding applied
to the exact product. -/
theorem jsMul_eq (a b : ℚ) : jsMul a b = roundB64 (a * b) := by
  have h1 : ((a.den : ℕ) : ℚ) ≠ 0 := Nat.cast_ne_zero.mpr a.den_nz
  have h3 : ((b.den : ℕ) : ℚ) ≠ 0 := Nat.cast_ne_zero.mpr b.den_nz
  have ha : (a.num : ℚ) = a * a.den := (div_eq_iff h1).mp (Rat.num_div_den a)
  have hb2 : (b.num : ℚ) = b * b.den := (div_eq_iff h3).mp (Rat.num_div_den b)
  unfold jsMul
  rw [Rat.divInt_eq_div]
  push_cast
  congr 1
  rw [div_eq_iff (mul_ne_zero h1 h3), ha, hb2]
  ring

/-- Device snapshot crossing the facade boundary: the `DeviceInfo`
interface declared identically in `src/src/App.tsx` and
`src/unnamed/part_000`, and the payload shape of the `get_devices`
command and the `devices-updated` event. -/
structure DeviceInfo where
  id : String
  name : String
  max_volume : ℚ
deriving DecidableEq, Repr

/-- Backend commands the frontend can invoke, plus the event
subscription made on mount.  Payload fields mirror the object literals
in the two `App` components. -/
inductive Command where
  | get_devices
  | get_global_max_volume
  | set_device_max_volume (deviceId : String) (volume : ℚ)
  | set_global_max_volume (volume : ℚ)
  | listen (eventName : String)
deriving DecidableEq, Repr

namespace AppRange

/-- Percentage shown next to a slider in `src/src/App.tsx`:
`Math.floor(device.max_volume * 100)`, the multiplication performed in
binary64. -/
def volumePercentage (max_volume : ℚ) : ℤ := Int.floor (jsMul max_volume 100)

/-- Lower bound of the range input in `src/src/App.tsx` (`min="1"`). -/
def sliderMin : ℤ := 1

/-- Upper bound of the range input in `src/src/App.tsx` (`max="100"`). -/
def sliderMax : ℤ := 100

/-- Device-ceiling callback of `src/src/App.tsx`: computes
`volume = volumePercentage / 100` in binary64, invokes
`set_device_max_volume` with that payload, then refetches the device
list with `get_devices`. -/
def onChangeDeviceMaxVolume (deviceId : String) (volumePct : ℤ) : List Command :=
  [Command.set_device_max_volume deviceId (jsDiv (volumePct : ℚ) 100), Command.get_devices]

/-- Global-ceiling callback of `src/src/App.tsx`: computes
`volume = volumePercentage / 100` in binary64 and invokes
`set_global_max_volume`; the device id argument is ignored. -/
def onChangeGlobalMaxVolume (_deviceId : String) (volumePct : ℤ) : List Command :=
  [Command.set_global_max_volume (jsDiv (volumePct : ℚ) 100)]

/-- Commands issued by the mount effect of `src/src/App.tsx`: fetch the
device list, fetch the global ceiling, subscribe to `devices-updated`. -/
def mountCommands : List Command :=
  [Command.get_devices, Command.get_global_max_volume, Command.listen "devices-updated"]

/-- Handler of the `devices-updated` event in `src/src/App.tsx`
(`event => setDevices(event.payload)`): the previous state is replaced
wholesale by the payload. -/
def onDevicesUpdated (_prev payload : List DeviceInfo) : List DeviceInfo := payload

end AppRange

namespace AppSlider

/-- Percentage shown next to a slider in `src/unnamed/part_000`:
`Math.floor(device.max_volume * 100)`, the multiplication performed in
binary64. -/
def volumePercentage (max_volume : ℚ) : ℤ := Int.floor (jsMul max_volume 100)

/-- Lower bound of the rc-slider in `src/unnamed/part_000` (`min=1`). -/
def sliderMin : ℤ := 1

/-- Upper bound of the rc-slider in `src/unnamed/part_000` (`max=100`). -/
def sliderMax : ℤ := 100

/-- Device-ceiling callback of `src/unnamed/part_000`: computes
`volume = volumePercentage / 100` in binary64, invokes
`set_device_max_volume` with that payload, then refetches the device
list with `get_devices`. -/
def onChangeDeviceMaxVolume (deviceId : String) (volumePct : ℤ) : List Command :=
  [Command.set_device_max_volume deviceId (jsDiv (volumePct : ℚ) 100), Command.get_devices]

/-- Global-ceiling callback of `src/unnamed/part_000`: computes
`volume = volumePercentage / 100` in binary64 and invokes
`set_global_max_volume`; the device id argument is ignored. -/
def onChangeGlobalMaxVolume (_deviceId : String) (volumePct : ℤ) : List Command :=
  [Command.set_global_max_volume (jsDiv (volumePct : ℚ) 100)]

/-- Commands issued by the mount effect of `src/unnamed/part_000`:
fetch the device list, fetch the global ceiling, subscribe to
`devices-updated`. -/
def mountCommands : List Command :=
  [Command.get_devices, Command.get_global_max_volume, Command.listen "devices-updated"]

/-- Handler of the `devices-updated` event in `src/unnamed/part_000`
(`event => setDevices(event.payload)`): the previous state is replaced
wholesale by the payload. -/
def onDevicesUpdated (_prev payload : List DeviceInfo) : List DeviceInfo := payload

end AppSlider

/-- Modelled from the spec: tokens of the persisted settings record
(§6 persisted state layout).  The settings-store file format is not in
the visible sources; it is abstracted as a token list. -/
inductive Tok where
  | num (q : ℚ)
  | str (s : String)
deriving DecidableEq, Repr

/-- Modelled from the spec: the persisted settings record, a global
ceiling and a mapping from stable identifier to device ceiling (§3,
§4.2, §6). -/
structure Settings where
  globalCeiling : ℚ
  deviceCeilings : List (String × ℚ)
deriving DecidableEq, Repr

/-- Modelled from the spec: the defaults used on first run,
`globalCeiling = 1.0` and an empty device map (§4.2). -/
def defaultSettings : Settings := ⟨1, []⟩

/-- Modelled from the spec: serialization of a settings record into the
abstract file format (§6 persisted state layout). -/
def serializeSettings (s : Settings) : List Tok :=
  Tok.num s.globalCeiling :: s.deviceCeilings.flatMap fun kv => [Tok.str kv.1, Tok.num kv.2]

/-- Modelled from the spec: parse the per-device ceiling mapping; any
malformed token sequence yields `none` (corrupted file, §4.2). -/
def parsePairs : List Tok → Option (List (String × ℚ))
  | [] => some []
  | Tok.str k :: Tok.num v :: rest => (parsePairs rest).map fun l => (k, v) :: l
  | _ => none

/-- Modelled from the spec: parse a whole settings record; any
malformed token sequence yields `none` (corrupted file, §4.2). -/
def parseSettings : List Tok → Option Settings
  | Tok.num g :: rest => (parsePairs rest).map fun l => ⟨g, l⟩
  | _ => none

/-- Modelled from the spec: the settings-store `load()` (§4.2).  A
missing file (`none`) and a corrupted file (unparseable content) both
yield the defaults; `load` is total, so startup never fails here. -/
def load (file : Option (List Tok)) : Settings :=
  match file with
  | none => defaultSettings
  | some toks => (parseSettings toks).getD defaultSettings

/-- Modelled from the spec: the settings-store `saveGlobal(value)`
(§4.2). -/
def saveGlobal (s : Settings) (v : ℚ) : Settings := { s with globalCeiling := v }

/-- Modelled from the spec: the settings-store
`saveDeviceCeiling(stableId, value)` (§4.2). -/
def saveDeviceCeiling (s : Settings) (id : String) (v : ℚ) : Settings :=
  { s with deviceCeilings := (id, v) :: s.deviceCeilings.filter fun kv => kv.1 != id }

/-- Modelled from the spec: the persisted ceiling for a stable id,
defaulting to `1.0` when none was ever set (§3 lifecycle). -/
def lookupCeiling (s : Settings) (id : String) : ℚ := (s.deviceCeilings.lookup id).getD 1

/-- Modelled from the spec: one registry entry (§3 Device), with the
enforcer's pending-correction marker (§4.4, §9). -/
structure Device where
  stableId : String
  displayName : String
  liveVolume : ℚ
  deviceCeiling : ℚ
  pendingCorrection : Option ℚ
deriving DecidableEq, Repr

/-- Modelled from the spec: engine state behind the single-writer
serialization point — the device registry and the settings store
(§2, §5). -/
structure EngineState where
  registry : List Device
  settings : Settings
deriving DecidableEq, Repr

/-- Modelled from the spec:
`EffectiveCeiling(device) = min(globalCeiling, device.deviceCeiling)`
(§3), recomputed from its inputs on every use. -/
def effectiveCeiling (g : ℚ) (d : Device) : ℚ := min g d.deviceCeiling

/-- Modelled from the spec: the facade error taxonomy used by the
per-device and global ceiling commands (§7). -/
inductive FacadeError where
  | invalidArgument
  | notFound
deriving DecidableEq, Repr

/-- Modelled from the spec: responses of the facade commands (§4.6). -/
inductive FacadeResponse where
  | noResponse
  | ack
  | deviceList (devices : List DeviceInfo)
  | err (e : FacadeError)
deriving DecidableEq, Repr

/-- Modelled from the spec: the observable result of processing one
inbound event at the single-writer point: the new engine state, the
corrective set-volume calls issued to the OS, the `devices-updated`
event payload if one is emitted, and the facade response (§4.4–§4.6). -/
structure StepOut where
  state : EngineState
  corrections : List (String × ℚ)
  emitted : Option (List DeviceInfo)
  response : FacadeResponse
deriving DecidableEq, Repr

/-- Modelled from the spec: the facade `getDevices` — an ordered
snapshot of the registry reporting each device's effective ceiling as
its `max_volume` (§4.6, §6). -/
def getDevices (e : EngineState) : List DeviceInfo :=
  e.registry.map fun d => ⟨d.stableId, d.displayName, min e.settings.globalCeiling d.deviceCeiling⟩

/-- Modelled from the spec: the facade `getGlobalMaxVolume` (§4.6). -/
def getGlobalMaxVolume (e : EngineState) : ℚ := e.settings.globalCeiling

/-- Modelled from the spec: the facade's range validation — a ceiling
fraction must lie in `[0, 1]` (§4.6, §7). -/
def validFraction (v : ℚ) : Bool := decide (0 ≤ v) && decide (v ≤ 1)

/-- Modelled from the spec: registry lookup by stable id (§4.3). -/
def findDevice (reg : List Device) (id : String) : Option Device :=
  reg.find? fun d => d.stableId == id

/-- Modelled from the spec: registry update of the entry with the given
stable id (§4.3 upsert); entries with other ids are untouched. -/
def updateDevice (reg : List Device) (id : String) (d' : Device) : List Device :=
  reg.map fun d => if d.stableId == id then d' else d

/-- Modelled from the spec: the enforcer's re-evaluation of one device
after a ceiling change (§4.4): if the live volume exceeds the effective
ceiling, issue a corrective set-volume for the effective ceiling,
record it as pending, and update the mirrored live volume. -/
def reevaluateDevice (g : ℚ) (d : Device) : Device × Option ℚ :=
  if d.liveVolume ≤ min g d.deviceCeiling then (d, none)
  else
    ({ d with liveVolume := min g d.deviceCeiling,
              pendingCorrection := some (min g d.deviceCeiling) },
      some (min g d.deviceCeiling))

/-- Modelled from the spec: the enforcer's evaluation of a reported
volume (§4.4 state machine): accept a value at or below the effective
ceiling, otherwise issue a corrective set-volume for the effective
ceiling and record it as pending. -/
def evaluateVolume (g : ℚ) (d : Device) (reported : ℚ) : Device × Option ℚ :=
  if reported ≤ min g d.deviceCeiling then
    ({ d with liveVolume := reported, pendingCorrection := none }, none)
  else
    ({ d with liveVolume := min g d.deviceCeiling,
              pendingCorrection := some (min g d.deviceCeiling) },
      some (min g d.deviceCeiling))

/-- Modelled from the spec: processing of one OS volume-change
delivery for one device (§4.4): a delivery matching the just-issued
corrective value is recognized as self-triggered, clears the pending
marker and suppresses re-evaluation; anything else is evaluated. -/
def handleVolumeChanged (g : ℚ) (d : Device) (reported : ℚ) : Device × Option ℚ :=
  match d.pendingCorrection with
  | some c =>
    if reported = c then ({ d with liveVolume := reported, pendingCorrection := none }, none)
    else evaluateVolume g d reported
  | none => evaluateVolume g d reported

/-- Corrective set-volume calls issued for one device, as a list. -/
def correctionList (id : String) (a : Option ℚ) : List (String × ℚ) :=
  match a with
  | none => []
  | some c => [(id, c)]

/-- Modelled from the spec: the single-writer processing of an OS
volume-change delivery (§4.4, §5).  No `devices-updated` event is
emitted: neither the device list nor any effective ceiling changes. -/
def onVolumeChanged (e : EngineState) (id : String) (reported : ℚ) : StepOut :=
  match findDevice e.registry id with
  | none => ⟨e, [], none, .noResponse⟩
  | some d =>
    let r := handleVolumeChanged e.settings.globalCeiling d reported
    ⟨{ e with registry := updateDevice e.registry id r.1 }, correctionList id r.2, none,
      .noResponse⟩

/-- Modelled from the spec: the device watcher's arrival handling
(§4.5): resolve identity, create or reattach an entry reusing the
persisted ceiling if present (else `1.0`), apply the current effective
ceiling immediately, and notify subscribers with the full snapshot. -/
def onDeviceArrived (e : EngineState) (id name : String) (reported : ℚ) : StepOut :=
  let d0 : Device := ⟨id, name, reported, lookupCeiling e.settings id, none⟩
  let r := reevaluateDevice e.settings.globalCeiling d0
  let e' : EngineState :=
    { e with registry := (e.registry.filter fun d => d.stableId != id) ++ [r.1] }
  ⟨e', correctionList id r.2, some (getDevices e'), .noResponse⟩

/-- Modelled from the spec: the device watcher's removal handling
(§4.5): drop the registry entry, keep the persisted ceiling, and
notify subscribers with the full snapshot. -/
def onDeviceRemoved (e : EngineState) (id : String) : StepOut :=
  let e' : EngineState := { e with registry := e.registry.filter fun d => d.stableId != id }
  ⟨e', [], some (getDevices e'), .noResponse⟩

/-- Modelled from the spec: the facade `setGlobalMaxVolume(fraction)`
(§4.6): validate the range, persist, re-evaluate the enforcer for all
devices, emit the full snapshot; out-of-range fails with
`InvalidArgument` before any mutation (§7). -/
def setGlobalMaxVolume (e : EngineState) (v : ℚ) : StepOut :=
  if validFraction v then
    let e' : EngineState :=
      { registry := e.registry.map fun d => (reevaluateDevice v d).1
        settings := saveGlobal e.settings v }
    ⟨e', e.registry.filterMap fun d => ((reevaluateDevice v d).2).map fun c => (d.stableId, c),
      some (getDevices e'), .ack⟩
  else ⟨e, [], none, .err .invalidArgument⟩

/-- Modelled from the spec: the facade
`setDeviceMaxVolume(stableId, fraction)` (§4.6): validate the range
(`InvalidArgument`), check the registry (`NotFound`), persist the
ceiling, re-evaluate the enforcer for that device, emit the full
snapshot and return the updated device list; both failures happen
before any mutation (§7). -/
def setDeviceMaxVolume (e : EngineState) (id : String) (v : ℚ) : StepOut :=
  if validFraction v then
    match findDevice e.registry id with
    | none => ⟨e, [], none, .err .notFound⟩
    | some d =>
      let settings' := saveDeviceCeiling e.settings id v
      let r := reevaluateDevice settings'.globalCeiling { d with deviceCeiling := v }
      let e' : EngineState := { registry := updateDevice e.registry id r.1, settings := settings' }
      ⟨e', correctionList id r.2, some (getDevices e'), .deviceList (getDevices e')⟩
  else ⟨e, [], none, .err .invalidArgument⟩

/-- Modelled from the spec: the inbound event queue consumed by the
single-writer processing loop (§5, §9): OS deliveries and facade
requests, processed in order. -/
inductive AudioEvent where
  | volumeChanged (id : String) (reported : ℚ)
  | deviceArrived (id name : String) (reported : ℚ)
  | deviceRemoved (id : String)
  | setGlobalReq (v : ℚ)
  | setDeviceReq (id : String) (v : ℚ)
deriving DecidableEq, Repr

/-- Modelled from the spec: dispatch of one inbound event at the
single-writer point (§5). -/
def step (e : EngineState) : AudioEvent → StepOut
  | .volumeChanged id r => onVolumeChanged e id r
  | .deviceArrived id nm r => onDeviceArrived e id nm r
  | .deviceRemoved id => onDeviceRemoved e id
  | .setGlobalReq v => setGlobalMaxVolume e v
  | .setDeviceReq id v => setDeviceMaxVolume e id v

/-- State after processing a queue of inbound events in order. -/
def run (e : EngineState) : List AudioEvent → EngineState
  | [] => e
  | ev :: evs => run (step e ev).state evs

/-- All corrective set-volume calls issued while processing a queue of
inbound events in order. -/
def runCorrections (e : EngineState) : List AudioEvent → List (String × ℚ)
  | [] => []
  | ev :: evs => (step e ev).corrections ++ runCorrections (step e ev).state evs

/-- Per-device enforcement invariant: the mirrored live volume is at or
below the effective ceiling, and a pending corrective value, if any, is
the currently mirrored live volume. -/
def DevInv (g : ℚ) (d : Device) : Prop :=
  d.liveVolume ≤ min g d.deviceCeiling ∧
  ∀ c, d.pendingCorrection = some c → d.liveVolume = c

/-- Engine-wide enforcement invariant: every registry entry satisfies
`DevInv` at the current global ceiling. -/
def EngineInv (e : EngineState) : Prop :=
  ∀ d ∈ e.registry, DevInv e.settings.globalCeiling d

theorem validFraction_iff (v : ℚ) : validFraction v = true ↔ 0 ≤ v ∧ v ≤ 1 := by
  simp [validFraction]

theorem reevaluateDevice_fst_stableId (g : ℚ) (d : Device) :
    (reevaluateDevice g d).1.stableId = d.stableId := by
  unfold reevaluateDevice
  split <;> rfl

theorem reevaluateDevice_fst_deviceCeiling (g : ℚ) (d : Device) :
    (reevaluateDevice g d).1.deviceCeiling = d.deviceCeiling := by
  unfold reevaluateDevice
  split <;> rfl

theorem reevaluateDevice_clamped (g : ℚ) (d : Device) :
    (reevaluateDevice g d).1.liveVolume ≤ min g (reevaluateDevice g d).1.deviceCeiling := by
  unfold reevaluateDevice
  split
  next h => exact h
  next h => exact le_refl _

theorem devInv_reevaluateDevice (g : ℚ) (d : Device)
    (h : ∀ c, d.pendingCorrection = some c → d.liveVolume = c) :
    DevInv g (reevaluateDevice g d).1 := by
  unfold DevInv reevaluateDevice
  split
  next hle => exact ⟨hle, h⟩
  next hle =>
    refine ⟨le_refl _, ?_⟩
    intro c hc
    injection hc with hc

theorem devInv_evaluateVolume (g : ℚ) (d : Device) (reported : ℚ) :
    DevInv g (evaluateVolume g d reported).1 := by
  unfold DevInv evaluateVolume
  split
  next hle =>
    refine ⟨hle, ?_⟩
    intro c hc
    exact absurd hc (by simp)
  next hle =>
    refine ⟨le_refl _, ?_⟩
    intro c hc
    injection hc with hc

theorem devInv_handleVolumeChanged (g : ℚ) (d : Device) (reported : ℚ)
    (h : DevInv g d) :
    DevInv g (handleVolumeChanged g d reported).1 := by
  unfold handleVolumeChanged
  cases hp : d.pendingCorrection with
  | none => exact devInv_evaluateVolume g d reported
  | some c =>
    by_cases hr : reported = c
    · simp only [if_pos hr]
      refine ⟨?_, ?_⟩
      · show reported ≤ min g d.deviceCeiling
        rw [hr, ← h.2 c hp]
        exact h.1
      · intro c' hc'
        exact absurd hc' (by simp)
    · simp only [if_neg hr]
      exact devInv_evaluateVolume g d reported

/-- A find over a mapped list, when the map preserves the searched
key. -/
theorem findDevice_map (reg : List Device) (id : String) (f : Device → Device)
    (hf : ∀ d, (f d).stableId = d.stableId) :
    findDevice (reg.map f) id = (findDevice reg id).map f := by
  induction reg with
  | nil => rfl
  | cons d reg ih =>
    unfold findDevice at ih ⊢
    rw [List.map_cons, List.find?_cons, List.find?_cons]
    by_cases h : (d.stableId == id) = true
    · rw [show ((f d).stableId == id) = true by rw [hf d]; exact h, h]
      rfl
    · have h' : (d.stableId == id) = false := by simpa using h
      rw [show ((f d).stableId == id) = false by rw [hf d]; exact h', h']
      exact ih

theorem findDevice_updateDevice (reg : List Device) (id : String) (d' : Device)
    (hd' : d'.stableId = id) :
    findDevice (updateDevice reg id d') id = (findDevice reg id).map fun _ => d' := by
  induction reg with
  | nil => rfl
  | cons d reg ih =>
    unfold findDevice updateDevice at ih ⊢
    rw [List.map_cons]
    by_cases h : (d.stableId == id) = true
    · rw [if_pos h, List.find?_cons, List.find?_cons,
        show (d'.stableId == id) = true by simp [hd'], h]
      rfl
    · have h' : (d.stableId == id) = false := by simpa using h
      rw [if_neg h, List.find?_cons, List.find?_cons, h']
      exact ih

theorem findDevice_filter_ne (reg : List Device) (id : String) :
    findDevice (reg.filter fun d => d.stableId != id) id = none := by
  induction reg with
  | nil => rfl
  | cons d reg ih =>
    unfold findDevice at ih ⊢
    by_cases h : (d.stableId == id) = true
    · rw [List.filter_cons_of_neg (by simp [bne, h])]
      exact ih
    · have h' : (d.stableId == id) = false := by simpa using h
      rw [List.filter_cons_of_pos (by simp [bne, h']), List.find?_cons, h']
      exact ih

theorem findDevice_append_left_none (l₁ l₂ : List Device) (id : String)
    (h : findDevice l₁ id = none) :
    findDevice (l₁ ++ l₂) id = findDevice l₂ id := by
  induction l₁ with
  | nil => rfl
  | cons d l₁ ih =>
    unfold findDevice at h ih ⊢
    by_cases hd : (d.stableId == id) = true
    · rw [List.find?_cons, hd] at h
      exact absurd h (by simp)
    · have hd' : (d.stableId == id) = false := by simpa using hd
      rw [List.find?_cons, hd'] at h
      rw [List.cons_append, List.find?_cons, hd']
      exact ih h

theorem engineInv_onVolumeChanged (e : EngineState) (id : String) (reported : ℚ)
    (h : EngineInv e) :
    EngineInv (onVolumeChanged e id reported).state := by
  unfold onVolumeChanged
  cases hf : findDevice e.registry id with
  | none => exact h
  | some d =>
    intro d' hd'
    simp only [updateDevice, List.mem_map] at hd'
    obtain ⟨d0, hd0, hmap⟩ := hd'
    by_cases hb : (d0.stableId == id) = true
    · rw [if_pos hb] at hmap
      subst hmap
      exact devInv_handleVolumeChanged _ d reported
        (h d (List.mem_of_find?_eq_some hf))
    · rw [if_neg hb] at hmap
      subst hmap
      exact h d0 hd0

theorem engineInv_onDeviceArrived (e : EngineState) (id nm : String) (reported : ℚ)
    (h : EngineInv e) :
    EngineInv (onDeviceArrived e id nm reported).state := by
  unfold onDeviceArrived
  intro d' hd'
  simp only [List.mem_append, List.mem_filter] at hd'
  cases hd' with
  | inl hmem => exact h d' hmem.1
  | inr hmem =>
    have : d' = (reevaluateDevice e.settings.globalCeiling
        ⟨id, nm, reported, lookupCeiling e.settings id, none⟩).1 := by
      simpa using hmem
    subst this
    exact devInv_reevaluateDevice _ _ (by intro c hc; exact absurd hc (by simp))

theorem engineInv_onDeviceRemoved (e : EngineState) (id : String) (h : EngineInv e) :
    EngineInv (onDeviceRemoved e id).state := by
  unfold onDeviceRemoved
  intro d' hd'
  simp only [List.mem_filter] at hd'
  exact h d' hd'.1

theorem engineInv_setGlobalMaxVolume (e : EngineState) (v : ℚ) (h : EngineInv e) :
    EngineInv (setGlobalMaxVolume e v).state := by
  unfold setGlobalMaxVolume
  split
  · intro d' hd'
    simp only [List.mem_map] at hd'
    obtain ⟨d0, hd0, hmap⟩ := hd'
    subst hmap
    exact devInv_reevaluateDevice _ _ (h d0 hd0).2
  · exact h

theorem engineInv_setDeviceMaxVolume (e : EngineState) (id : String) (v : ℚ)
    (h : EngineInv e) :
    EngineInv (setDeviceMaxVolume e id v).state := by
  unfold setDeviceMaxVolume
  split
  · cases hf : findDevice e.registry id with
    | none => exact h
    | some d =>
      intro d' hd'
      simp only [updateDevice, List.mem_map] at hd'
      obtain ⟨d0, hd0, hmap⟩ := hd'
      by_cases hb : (d0.stableId == id) = true
      · rw [if_pos hb] at hmap
        subst hmap
        exact devInv_reevaluateDevice _ _ (h d (List.mem_of_find?_eq_some hf)).2
      · rw [if_neg hb] at hmap
        subst hmap
        exact h d0 hd0
  · exact h

theorem engineInv_step (e : EngineState) (ev : AudioEvent) (h : EngineInv e) :
    EngineInv (step e ev).state := by
  cases ev with
  | volumeChanged id r => exact engineInv_onVolumeChanged e id r h
  | deviceArrived id nm r => exact engineInv_onDeviceArrived e id nm r h
  | deviceRemoved id => exact engineInv_onDeviceRemoved e id h
  | setGlobalReq v => exact engineInv_setGlobalMaxVolume e v h
  | setDeviceReq id v => exact engineInv_setDeviceMaxVolume e id v h

theorem engineInv_run (e : EngineState) (evs : List AudioEvent) (h : EngineInv e) :
    EngineInv (run e evs) := by
  induction evs generalizing e with
  | nil => exact h
  | cons ev evs ih => exact ih _ (engineInv_step e ev h)

/-- A device settled at its effective ceiling `eff`: every registry
entry with the given stable id mirrors `eff`, has effective ceiling
`eff`, and carries no pending correction other than `eff`. -/
def SettledAt (st : EngineState) (id : String) (eff : ℚ) : Prop :=
  ∀ d ∈ st.registry, d.stableId = id →
    d.liveVolume = eff ∧ min st.settings.globalCeiling d.deviceCeiling = eff ∧
    (d.pendingCorrection = none ∨ d.pendingCorrection = some eff)

/-- Injecting any number of synthetic volume-change notifications
carrying the corrective value into a settled engine produces no
further corrective set-volume calls. -/
theorem settled_no_corrections (id : String) (eff : ℚ) (n : ℕ) :
    ∀ st : EngineState, SettledAt st id eff →
      runCorrections st (List.replicate n (AudioEvent.volumeChanged id eff)) = [] := by
  induction n with
  | zero => intro st _; rfl
  | succ n ih =>
    intro st hset
    rw [List.replicate_succ]
    show (step st (AudioEvent.volumeChanged id eff)).corrections
        ++ runCorrections (step st (AudioEvent.volumeChanged id eff)).state
          (List.replicate n (AudioEvent.volumeChanged id eff)) = []
    cases hf : findDevice st.registry id with
    | none =>
      have h1 : step st (AudioEvent.volumeChanged id eff) = ⟨st, [], none, .noResponse⟩ := by
        simp [step, onVolumeChanged, hf]
      rw [h1]
      simpa using ih st hset
    | some d =>
      have hdid : d.stableId = id := by simpa using List.find?_some hf
      obtain ⟨hlive, heff, hpend⟩ := hset d (List.mem_of_find?_eq_some hf) hdid
      have hres : handleVolumeChanged st.settings.globalCeiling d eff
          = ({ d with liveVolume := eff, pendingCorrection := none }, none) := by
        cases hpend with
        | inl hnone => simp [handleVolumeChanged, hnone, evaluateVolume, heff]
        | inr hsome => simp [handleVolumeChanged, hsome]
      have h1 : step st (AudioEvent.volumeChanged id eff)
          = ⟨⟨updateDevice st.registry id { d with liveVolume := eff, pendingCorrection := none }, st.settings⟩, [], none, .noResponse⟩ := by
        simp [step, onVolumeChanged, hf, hres, correctionList]
      rw [h1]
      simp only [List.nil_append]
      apply ih
      intro dd hdd hddid
      simp only [updateDevice, List.mem_map] at hdd
      obtain ⟨d0, hd0, hmap⟩ := hdd
      by_cases hb : (d0.stableId == id) = true
      · rw [if_pos hb] at hmap
        subst hmap
        exact ⟨rfl, by simpa using heff, Or.inl rfl⟩
      · rw [if_neg hb] at hmap
        subst hmap
        exact absurd (by simp [hddid]) hb

/-- Finding a device in the facade snapshot is finding it in the
registry and reading off its effective ceiling. -/
theorem find_getDevices (st : EngineState) (id : String) :
    ((getDevices st).find? fun s => s.id == id)
      = (findDevice st.registry id).map
          fun d => ⟨d.stableId, d.displayName, min st.settings.globalCeiling d.deviceCeiling⟩ := by
  suffices h : ∀ (reg : List Device) (g : ℚ),
      ((reg.map fun d =>
          (⟨d.stableId, d.displayName, min g d.deviceCeiling⟩ : DeviceInfo)).find?
        fun s => s.id == id)
        = (findDevice reg id).map
            fun d => ⟨d.stableId, d.displayName, min g d.deviceCeiling⟩ by
    exact h st.registry st.settings.globalCeiling
  intro reg g
  induction reg with
  | nil => rfl
  | cons d reg ih =>
    unfold findDevice at ih ⊢
    rw [List.map_cons, List.find?_cons, List.find?_cons]
    by_cases h : (d.stableId == id) = true
    · rw [show ((⟨d.stableId, d.displayName, min g d.deviceCeiling⟩ : DeviceInfo).id == id)
          = true from h]
      rfl
    · have h' : (d.stableId == id) = false := by simpa using h
      rw [show ((⟨d.stableId, d.displayName, min g d.deviceCeiling⟩ : DeviceInfo).id == id)
          = false from h']
      exact ih

/-- A range-valid fraction can never be rejected as `InvalidArgument`
by the per-device ceiling command. -/
theorem setDeviceMaxVolume_response_not_invalid (e : EngineState) (id : String) (v : ℚ)
    (hv : validFraction v = true) :
    (setDeviceMaxVolume e id v).response ≠ FacadeResponse.err FacadeError.invalidArgument := by
  unfold setDeviceMaxVolume
  rw [if_pos hv]
  cases findDevice e.registry id <;> simp

/-- Parsing inverts serialization on the device-ceiling pairs. -/
theorem parsePairs_serialize (l : List (String × ℚ)) :
    parsePairs (l.flatMap fun kv => [Tok.str kv.1, Tok.num kv.2]) = some l := by
  induction l with
  | nil => rfl
  | cons kv l ih =>
    show parsePairs (Tok.str kv.1 :: Tok.num kv.2 ::
        l.flatMap fun kv => [Tok.str kv.1, Tok.num kv.2]) = some (kv :: l)
    simp [parsePairs, ih]

/-- Parsing inverts serialization on whole settings records: a
well-formed settings file loads to exactly the saved settings. -/
theorem parseSettings_serialize (s : Settings) :
    parseSettings (serializeSettings s) = some s := by
  unfold serializeSettings
  simp [parseSettings, parsePairs_serialize]

/-- Shape of the engine state after a successful global ceiling
request: the new ceiling is persisted and every device is
re-evaluated. -/
theorem setGlobalMaxVolume_state (e : EngineState) (v : ℚ) (hv : validFraction v = true) :
    (setGlobalMaxVolume e v).state
      = ⟨e.registry.map fun d => (reevaluateDevice v d).1, saveGlobal e.settings v⟩ := by
  simp [setGlobalMaxVolume, hv]

/-- Shape of the engine state after a successful per-device ceiling
request: the ceiling is persisted and the device is re-evaluated. -/
theorem setDeviceMaxVolume_state (e : EngineState) (id : String) (v : ℚ) (d : Device)
    (hv : validFraction v = true) (hf : findDevice e.registry id = some d) :
    (setDeviceMaxVolume e id v).state
      = ⟨updateDevice e.registry id
            (reevaluateDevice e.settings.globalCeiling { d with deviceCeiling := v }).1,
          saveDeviceCeiling e.settings id v⟩ := by
  simp [setDeviceMaxVolume, hv, hf, saveDeviceCeiling]

/-- The facade snapshot reports, for a device found by id, exactly the
recomputed effective ceiling as its `max_volume`. -/
theorem getDevices_find_max (st : EngineState) (id : String) (d : Device)
    (hf : findDevice st.registry id = some d) :
    ((getDevices st).find? fun s => s.id == id).map DeviceInfo.max_volume
      = some (min st.settings.globalCeiling d.deviceCeiling) := by
  rw [find_getDevices, hf]
  rfl

/-- C1: after the single-writer point has processed any queue of
volume-change, device-topology and ceiling-change events — i.e. after
settling, one processing cycle per event — every connected device's
live volume is at or below its effective ceiling
`min(globalCeiling, deviceCeiling)`; the model satisfies the bound with
`ε = 0`. -/
theorem enforcer_effective_ceiling_invariant (e : EngineState) (evs : List AudioEvent)
    (h : EngineInv e) :
    ∀ d ∈ (run e evs).registry,
      d.liveVolume ≤ effectiveCeiling (run e evs).settings.globalCeiling d :=
  fun d hd => (engineInv_run e evs h d hd).1

/-- Concrete instantiation of `enforcer_effective_ceiling_invariant`
from the empty engine through an arrival at volume 0.9, a global
ceiling of 0.5 and the resulting corrective notification. -/
theorem enforcer_effective_ceiling_invariant_witness :
    EngineInv ⟨[], defaultSettings⟩ ∧
    ∀ d ∈ (run ⟨[], defaultSettings⟩
        [AudioEvent.deviceArrived "spk" "Speakers" (mkRat 9 10),
          AudioEvent.setGlobalReq (mkRat 1 2),
          AudioEvent.volumeChanged "spk" (mkRat 1 2)]).registry,
      d.liveVolume ≤ effectiveCeiling (run ⟨[], defaultSettings⟩
        [AudioEvent.deviceArrived "spk" "Speakers" (mkRat 9 10),
          AudioEvent.setGlobalReq (mkRat 1 2),
          AudioEvent.volumeChanged "spk" (mkRat 1 2)]).settings.globalCeiling d :=
  ⟨fun d hd => absurd hd (List.not_mem_nil d),
    enforcer_effective_ceiling_invariant _ _ (fun d hd => absurd hd (List.not_mem_nil d))⟩

/-- C2: the effective ceiling is `min(globalCeiling, deviceCeiling)`,
recomputed on every read of the facade snapshot (each `max_volume` is
computed from the current state, no derived value is stored); setting
`globalCeiling = 0.5` then `deviceCeiling(Y) = 0.8` reports effective
`0.5` for `Y`, and raising `globalCeiling` to `0.9` afterwards reports
`0.8` — the two ceilings are independent. -/
theorem effectiveCeiling_min_independent (e : EngineState) (Y : String) (dY : Device)
    (hfind : findDevice e.registry Y = some dY) :
    (∀ g d, effectiveCeiling g d = min g d.deviceCeiling)
    ∧ (∀ st : EngineState, (getDevices st).map DeviceInfo.max_volume
        = st.registry.map fun d => effectiveCeiling st.settings.globalCeiling d)
    ∧ ((getDevices (setDeviceMaxVolume (setGlobalMaxVolume e (1/2)).state Y
          (4/5)).state).find? fun s => s.id == Y).map DeviceInfo.max_volume
        = some (1/2)
    ∧ ((getDevices (setGlobalMaxVolume (setDeviceMaxVolume
          (setGlobalMaxVolume e (1/2)).state Y (4/5)).state
          (9/10)).state).find? fun s => s.id == Y).map DeviceInfo.max_volume
        = some (4/5) := by
  have hv12 : validFraction (1/2 : ℚ) = true :=
    (validFraction_iff _).mpr ⟨by norm_num, by norm_num⟩
  have hv45 : validFraction (4/5 : ℚ) = true :=
    (validFraction_iff _).mpr ⟨by norm_num, by norm_num⟩
  have hv910 : validFraction (9/10 : ℚ) = true :=
    (validFraction_iff _).mpr ⟨by norm_num, by norm_num⟩
  have hYid : dY.stableId = Y := by simpa using List.find?_some hfind
  have h1 := setGlobalMaxVolume_state e (1/2) hv12
  have hf1 : findDevice (setGlobalMaxVolume e (1/2)).state.registry Y
      = some ((reevaluateDevice (1/2) dY).1) := by
    rw [h1]
    show findDevice (e.registry.map fun d => (reevaluateDevice (1/2) d).1) Y = _
    rw [findDevice_map _ _ _ (fun d => reevaluateDevice_fst_stableId (1/2) d), hfind]
    rfl
  have hd1id : ((reevaluateDevice (1/2 : ℚ) dY).1).stableId = Y := by
    rw [reevaluateDevice_fst_stableId]
    exact hYid
  have h2 := setDeviceMaxVolume_state (setGlobalMaxVolume e (1/2)).state Y (4/5)
    ((reevaluateDevice (1/2) dY).1) hv45 hf1
  have hd2id : ((reevaluateDevice (setGlobalMaxVolume e (1/2)).state.settings.globalCeiling
      { (reevaluateDevice (1/2) dY).1 with deviceCeiling := 4/5 }).1).stableId = Y := by
    rw [reevaluateDevice_fst_stableId]
    exact hd1id
  have hf2 : findDevice (setDeviceMaxVolume (setGlobalMaxVolume e (1/2)).state Y
        (4/5)).state.registry Y
      = some ((reevaluateDevice (setGlobalMaxVolume e (1/2)).state.settings.globalCeiling
          { (reevaluateDevice (1/2) dY).1 with deviceCeiling := 4/5 }).1) := by
    rw [h2]
    show findDevice (updateDevice (setGlobalMaxVolume e (1/2)).state.registry Y
        ((reevaluateDevice (setGlobalMaxVolume e (1/2)).state.settings.globalCeiling
          { (reevaluateDevice (1/2) dY).1 with deviceCeiling := 4/5 }).1)) Y = _
    rw [findDevice_updateDevice _ _ _ hd2id, hf1]
    rfl
  have hd2ceil : ((reevaluateDevice (setGlobalMaxVolume e (1/2)).state.settings.globalCeiling
      { (reevaluateDevice (1/2) dY).1 with deviceCeiling := 4/5 }).1).deviceCeiling
      = (4/5 : ℚ) := by
    rw [reevaluateDevice_fst_deviceCeiling]
  refine ⟨fun g d => rfl, ?_, ?_, ?_⟩
  · intro st
    simp [getDevices, effectiveCeiling, List.map_map]
  · rw [getDevices_find_max _ _ _ hf2, hd2ceil, h2]
    show some (min (setGlobalMaxVolume e (1/2)).state.settings.globalCeiling (4/5 : ℚ))
      = some (1/2)
    rw [h1]
    show some (min (1/2 : ℚ) (4/5)) = some (1/2)
    rw [min_eq_left (by norm_num : (1/2 : ℚ) ≤ 4/5)]
  · have h3 := setGlobalMaxVolume_state (setDeviceMaxVolume
      (setGlobalMaxVolume e (1/2)).state Y (4/5)).state (9/10) hv910
    have hf3 : findDevice (setGlobalMaxVolume (setDeviceMaxVolume
          (setGlobalMaxVolume e (1/2)).state Y (4/5)).state (9/10)).state.registry Y
        = some ((reevaluateDevice (9/10)
            ((reevaluateDevice (setGlobalMaxVolume e (1/2)).state.settings.globalCeiling
              { (reevaluateDevice (1/2) dY).1 with deviceCeiling := 4/5 }).1)).1) := by
      rw [h3]
      show findDevice ((setDeviceMaxVolume (setGlobalMaxVolume e (1/2)).state Y
          (4/5)).state.registry.map fun d => (reevaluateDevice (9/10) d).1) Y = _
      rw [findDevice_map _ _ _ (fun d => reevaluateDevice_fst_stableId (9/10) d), hf2]
      rfl
    rw [getDevices_find_max _ _ _ hf3, reevaluateDevice_fst_deviceCeiling, hd2ceil, h3]
    show some (min (9/10 : ℚ) (4/5)) = some (4/5)
    rw [min_eq_right (by norm_num : (4/5 : ℚ) ≤ 9/10)]

/-- Concrete instantiation of `effectiveCeiling_min_independent` on a
one-device registry. -/
theorem effectiveCeiling_min_independent_witness :
    findDevice [(⟨"Y", "Monitor", 1, 1, none⟩ : Device)] "Y"
      = some ⟨"Y", "Monitor", 1, 1, none⟩
    ∧ ((getDevices (setDeviceMaxVolume (setGlobalMaxVolume
        ⟨[⟨"Y", "Monitor", 1, 1, none⟩], defaultSettings⟩ (1/2)).state "Y"
        (4/5)).state).find? fun s => s.id == "Y").map DeviceInfo.max_volume
      = some (1/2) :=
  ⟨rfl, (effectiveCeiling_min_independent ⟨[⟨"Y", "Monitor", 1, 1, none⟩], defaultSettings⟩
    "Y" ⟨"Y", "Monitor", 1, 1, none⟩ rfl).2.2.1⟩

/-- C4: the per-device ceiling command rejects an out-of-range fraction
with `InvalidArgument` and an unknown stable id with `NotFound`, in
both cases changing nothing (the whole step result carries the input
state back, with no corrections and no event); on success it persists
the ceiling, re-evaluates the enforcer for that device (the device is
left at or below its effective ceiling) and returns the updated device
list. -/
theorem setDeviceMaxVolume_validation_atomic (e : EngineState) (id : String) (v : ℚ) :
    (¬ (0 ≤ v ∧ v ≤ 1) →
      setDeviceMaxVolume e id v = ⟨e, [], none, .err .invalidArgument⟩)
    ∧ ((0 ≤ v ∧ v ≤ 1) → findDevice e.registry id = none →
      setDeviceMaxVolume e id v = ⟨e, [], none, .err .notFound⟩)
    ∧ ∀ d, (0 ≤ v ∧ v ≤ 1) → findDevice e.registry id = some d →
      ((setDeviceMaxVolume e id v).state.settings.deviceCeilings.lookup id = some v
      ∧ (setDeviceMaxVolume e id v).response
          = .deviceList (getDevices (setDeviceMaxVolume e id v).state)
      ∧ ∀ d', findDevice (setDeviceMaxVolume e id v).state.registry id = some d' →
          d'.liveVolume ≤ effectiveCeiling
            (setDeviceMaxVolume e id v).state.settings.globalCeiling d') := by
  refine ⟨?_, ?_, ?_⟩
  · intro h
    have hv : ¬ (validFraction v = true) := fun hv => h ((validFraction_iff v).mp hv)
    unfold setDeviceMaxVolume
    rw [if_neg hv]
  · intro h hf
    have hv := (validFraction_iff v).mpr h
    unfold setDeviceMaxVolume
    rw [if_pos hv, hf]
  · intro d h hf
    have hv := (validFraction_iff v).mpr h
    have hdid : d.stableId = id := by simpa using List.find?_some hf
    have hstate := setDeviceMaxVolume_state e id v d hv hf
    have hr1id : ((reevaluateDevice e.settings.globalCeiling
        { d with deviceCeiling := v }).1).stableId = id := by
      rw [reevaluateDevice_fst_stableId]
      exact hdid
    refine ⟨?_, ?_, ?_⟩
    · rw [hstate]
      show (saveDeviceCeiling e.settings id v).deviceCeilings.lookup id = some v
      simp [saveDeviceCeiling, List.lookup]
    · simp [setDeviceMaxVolume, hv, hf]
    · intro d' hfd'
      have hfd : findDevice (setDeviceMaxVolume e id v).state.registry id
          = some ((reevaluateDevice e.settings.globalCeiling
              { d with deviceCeiling := v }).1) := by
        rw [hstate]
        show findDevice (updateDevice e.registry id
            ((reevaluateDevice e.settings.globalCeiling
              { d with deviceCeiling := v }).1)) id = _
        rw [findDevice_updateDevice _ _ _ hr1id, hf]
        rfl
      rw [hfd] at hfd'
      injection hfd' with hfd'
      subst hfd'
      rw [hstate]
      show (reevaluateDevice e.settings.globalCeiling
          { d with deviceCeiling := v }).1.liveVolume
        ≤ min e.settings.globalCeiling (reevaluateDevice e.settings.globalCeiling
          { d with deviceCeiling := v }).1.deviceCeiling
      exact reevaluateDevice_clamped _ _

/-- Concrete instantiation of `setDeviceMaxVolume_validation_atomic`:
an out-of-range fraction and an unknown id are both rejected with the
state unchanged, and a valid request persists the ceiling. -/
theorem setDeviceMaxVolume_validation_atomic_witness :
    setDeviceMaxVolume ⟨[], defaultSettings⟩ "spk" (3/2)
      = ⟨⟨[], defaultSettings⟩, [], none, .err .invalidArgument⟩
    ∧ setDeviceMaxVolume ⟨[], defaultSettings⟩ "spk" (1/2)
      = ⟨⟨[], defaultSettings⟩, [], none, .err .notFound⟩
    ∧ (setDeviceMaxVolume ⟨[⟨"spk", "Speakers", 1, 1, none⟩], defaultSettings⟩ "spk"
        (1/2)).state.settings.deviceCeilings.lookup "spk" = some (1/2) :=
  ⟨(setDeviceMaxVolume_validation_atomic _ _ _).1 (by norm_num),
    (setDeviceMaxVolume_validation_atomic _ _ _).2.1 ⟨by norm_num, by norm_num⟩ rfl,
    ((setDeviceMaxVolume_validation_atomic
        ⟨[⟨"spk", "Speakers", 1, 1, none⟩], defaultSettings⟩ "spk" (1/2)).2.2
      ⟨"spk", "Speakers", 1, 1, none⟩ ⟨by norm_num, by norm_num⟩ (by decide)).1⟩

/-- C5: a persisted per-device ceiling survives removal — the settings
entry remains while no registry entry exists — and a later arrival
that resolves to the same stable id reattaches exactly that ceiling
with no user action. -/
theorem reconnect_preserves_ceiling (e : EngineState) (X nm : String) (r c : ℚ)
    (hX : e.settings.deviceCeilings.lookup X = some c) :
    findDevice (onDeviceRemoved e X).state.registry X = none
    ∧ (onDeviceRemoved e X).state.settings.deviceCeilings.lookup X = some c
    ∧ (findDevice (onDeviceArrived (onDeviceRemoved e X).state X nm r).state.registry X).map
        Device.deviceCeiling = some c := by
  refine ⟨?_, ?_, ?_⟩
  · show findDevice (e.registry.filter fun d => d.stableId != X) X = none
    exact findDevice_filter_ne e.registry X
  · exact hX
  · show (findDevice (((onDeviceRemoved e X).state.registry.filter
        fun d => d.stableId != X) ++
        [(reevaluateDevice (onDeviceRemoved e X).state.settings.globalCeiling
          ⟨X, nm, r, lookupCeiling (onDeviceRemoved e X).state.settings X, none⟩).1]) X).map
        Device.deviceCeiling = some c
    rw [findDevice_append_left_none _ _ _ (findDevice_filter_ne _ X)]
    unfold findDevice
    rw [List.find?_cons,
      show ((reevaluateDevice (onDeviceRemoved e X).state.settings.globalCeiling
        ⟨X, nm, r, lookupCeiling (onDeviceRemoved e X).state.settings X, none⟩).1.stableId == X)
        = true by rw [reevaluateDevice_fst_stableId]; simp]
    show some ((reevaluateDevice (onDeviceRemoved e X).state.settings.globalCeiling
        ⟨X, nm, r, lookupCeiling (onDeviceRemoved e X).state.settings X, none⟩).1.deviceCeiling)
      = some c
    rw [reevaluateDevice_fst_deviceCeiling]
    show some (lookupCeiling e.settings X) = some c
    unfold lookupCeiling
    rw [hX]
    rfl

/-- Concrete instantiation of `reconnect_preserves_ceiling` with a
persisted ceiling of 0.4 for stable id `X`. -/
theorem reconnect_preserves_ceiling_witness :
    (findDevice (onDeviceArrived (onDeviceRemoved
        ⟨[⟨"X", "Headset", 1, mkRat 2 5, none⟩], ⟨1, [("X", mkRat 2 5)]⟩⟩ "X").state
        "X" "Headset" 1).state.registry "X").map Device.deviceCeiling
      = some (mkRat 2 5) :=
  (reconnect_preserves_ceiling ⟨[⟨"X", "Headset", 1, mkRat 2 5, none⟩],
    ⟨1, [("X", mkRat 2 5)]⟩⟩ "X" "Headset" 1 (mkRat 2 5) rfl).2.2

/-- C6: the settings-store `load` returns the defaults
(`globalCeiling = 1`, empty device map) for a missing file and for any
corrupted (unparseable) file, rather than failing startup — `load` is
total; a well-formed file loads to exactly the saved settings. -/
theorem load_defaults_on_missing_or_corrupt :
    load none = defaultSettings
    ∧ (∀ toks, parseSettings toks = none → load (some toks) = defaultSettings)
    ∧ load (some [Tok.str "garbage"]) = defaultSettings
    ∧ (∀ s, load (some (serializeSettings s)) = s)
    ∧ defaultSettings.globalCeiling = 1 ∧ defaultSettings.deviceCeilings = [] := by
  refine ⟨rfl, ?_, rfl, ?_, rfl, rfl⟩
  · intro toks h
    show (parseSettings toks).getD defaultSettings = defaultSettings
    rw [h]
    rfl
  · intro s
    show (parseSettings (serializeSettings s)).getD defaultSettings = s
    rw [parseSettings_serialize]
    rfl

/-- Concrete instantiation of `load_defaults_on_missing_or_corrupt` on
an unparseable token list. -/
theorem load_defaults_on_missing_or_corrupt_witness :
    load (some [Tok.num 1, Tok.num 2]) = defaultSettings :=
  load_defaults_on_missing_or_corrupt.2.1 [Tok.num 1, Tok.num 2] rfl

/-- C7: every registry-changing or ceiling-changing operation emits a
`devices-updated` event whose payload is the full current snapshot
(`getDevices` of the resulting state, not a diff), and the frontend
handler of both variants replaces its whole device list with the
payload, so after the event the frontend state equals the snapshot
exactly. -/
theorem devices_updated_full_snapshot :
    (∀ e id nm r, (onDeviceArrived e id nm r).emitted
        = some (getDevices (onDeviceArrived e id nm r).state))
    ∧ (∀ e id, (onDeviceRemoved e id).emitted
        = some (getDevices (onDeviceRemoved e id).state))
    ∧ (∀ e v, validFraction v = true → (setGlobalMaxVolume e v).emitted
        = some (getDevices (setGlobalMaxVolume e v).state))
    ∧ (∀ e id v d, validFraction v = true → findDevice e.registry id = some d →
        (setDeviceMaxVolume e id v).emitted
          = some (getDevices (setDeviceMaxVolume e id v).state))
    ∧ (∀ prev payload, AppRange.onDevicesUpdated prev payload = payload)
    ∧ (∀ prev payload, AppSlider.onDevicesUpdated prev payload = payload) := by
  refine ⟨fun e id nm r => rfl, fun e id => rfl, ?_, ?_, fun prev payload => rfl,
    fun prev payload => rfl⟩
  · intro e v hv
    unfold setGlobalMaxVolume
    rw [if_pos hv]
  · intro e id v d hv hf
    unfold setDeviceMaxVolume
    rw [if_pos hv, hf]

/-- Concrete instantiation of `devices_updated_full_snapshot` for a
global ceiling change. -/
theorem devices_updated_full_snapshot_witness :
    validFraction (mkRat 1 2) = true ∧
    (setGlobalMaxVolume ⟨[], defaultSettings⟩ (mkRat 1 2)).emitted
      = some (getDevices (setGlobalMaxVolume ⟨[], defaultSettings⟩ (mkRat 1 2)).state) :=
  ⟨by decide, devices_updated_full_snapshot.2.2.1 ⟨[], defaultSettings⟩ (mkRat 1 2)
    (by decide)⟩

/-- C3: lowering a device's ceiling below its live volume (per-device
request, or a global request on a one-device registry) issues exactly
one corrective set-volume call bringing the live volume exactly to the
new effective ceiling, and injecting any number of OS notifications
reporting that corrective value — including the one the corrective
call itself generates — produces no further corrective action. -/
theorem corrective_clamp_no_oscillation (e : EngineState) (id : String) (d : Device) (v : ℚ)
    (hfind : findDevice e.registry id = some d)
    (h0 : 0 ≤ v) (h1 : v ≤ 1) (hlt : v < d.liveVolume) :
    (setDeviceMaxVolume e id v).corrections = [(id, min e.settings.globalCeiling v)]
    ∧ (findDevice (setDeviceMaxVolume e id v).state.registry id).map Device.liveVolume
        = some (min e.settings.globalCeiling v)
    ∧ (∀ n, runCorrections (setDeviceMaxVolume e id v).state
        (List.replicate n (AudioEvent.volumeChanged id
          (min e.settings.globalCeiling v))) = [])
    ∧ ∀ (e₂ : EngineState) (d₂ : Device) (w : ℚ), e₂.registry = [d₂] →
        validFraction w = true → min w d₂.deviceCeiling < d₂.liveVolume →
        ((setGlobalMaxVolume e₂ w).corrections = [(d₂.stableId, min w d₂.deviceCeiling)]
        ∧ (findDevice (setGlobalMaxVolume e₂ w).state.registry d₂.stableId).map
            Device.liveVolume = some (min w d₂.deviceCeiling)
        ∧ ∀ n, runCorrections (setGlobalMaxVolume e₂ w).state
            (List.replicate n (AudioEvent.volumeChanged d₂.stableId
              (min w d₂.deviceCeiling))) = []) := by
  have hv : validFraction v = true := (validFraction_iff v).mpr ⟨h0, h1⟩
  have hdid : d.stableId = id := by simpa using List.find?_some hfind
  have hnot : ¬ (({ d with deviceCeiling := v } : Device).liveVolume
      ≤ min e.settings.globalCeiling
        ({ d with deviceCeiling := v } : Device).deviceCeiling) := by
    show ¬ d.liveVolume ≤ min e.settings.globalCeiling v
    exact not_le.mpr (lt_of_le_of_lt (min_le_right _ _) hlt)
  have hre : reevaluateDevice e.settings.globalCeiling { d with deviceCeiling := v }
      = (⟨d.stableId, d.displayName, min e.settings.globalCeiling v, v,
          some (min e.settings.globalCeiling v)⟩,
          some (min e.settings.globalCeiling v)) := by
    unfold reevaluateDevice
    rw [if_neg hnot]
  have hre1 : (reevaluateDevice e.settings.globalCeiling { d with deviceCeiling := v }).1
      = ⟨d.stableId, d.displayName, min e.settings.globalCeiling v, v,
          some (min e.settings.globalCeiling v)⟩ := by
    rw [hre]
  have hstate := setDeviceMaxVolume_state e id v d hv hfind
  have hr1id : ((reevaluateDevice e.settings.globalCeiling
      { d with deviceCeiling := v }).1).stableId = id := by
    rw [reevaluateDevice_fst_stableId]
    exact hdid
  refine ⟨?_, ?_, ?_, ?_⟩
  · simp [setDeviceMaxVolume, hv, hfind, saveDeviceCeiling, hre, correctionList]
  · rw [hstate]
    show (findDevice (updateDevice e.registry id
        ((reevaluateDevice e.settings.globalCeiling
          { d with deviceCeiling := v }).1)) id).map Device.liveVolume
      = some (min e.settings.globalCeiling v)
    rw [findDevice_updateDevice _ _ _ hr1id, hfind, hre1]
    rfl
  · intro n
    apply settled_no_corrections
    rw [hstate]
    intro dd hdd hddid
    simp only [updateDevice, List.mem_map] at hdd
    obtain ⟨d0, hd0, hmap⟩ := hdd
    by_cases hb : (d0.stableId == id) = true
    · rw [if_pos hb] at hmap
      subst hmap
      rw [hre1]
      exact ⟨rfl, rfl, Or.inr rfl⟩
    · rw [if_neg hb] at hmap
      subst hmap
      exact absurd (by simp [hddid]) hb
  · intro e₂ d₂ w hreg hw hlt₂
    have hnot₂ : ¬ (d₂.liveVolume ≤ min w d₂.deviceCeiling) := not_le.mpr hlt₂
    have hre₂ : reevaluateDevice w d₂
        = (⟨d₂.stableId, d₂.displayName, min w d₂.deviceCeiling, d₂.deviceCeiling,
            some (min w d₂.deviceCeiling)⟩,
            some (min w d₂.deviceCeiling)) := by
      unfold reevaluateDevice
      rw [if_neg hnot₂]
    have hre₂1 : (reevaluateDevice w d₂).1
        = ⟨d₂.stableId, d₂.displayName, min w d₂.deviceCeiling, d₂.deviceCeiling,
            some (min w d₂.deviceCeiling)⟩ := by
      rw [hre₂]
    have hst := setGlobalMaxVolume_state e₂ w hw
    rw [hreg] at hst
    refine ⟨?_, ?_, ?_⟩
    · simp [setGlobalMaxVolume, hw, hreg, hre₂]
    · rw [hst]
      show (findDevice ([d₂].map fun d => (reevaluateDevice w d).1) d₂.stableId).map
          Device.liveVolume = some (min w d₂.deviceCeiling)
      rw [findDevice_map _ _ _ (fun d => reevaluateDevice_fst_stableId w d),
        show findDevice [d₂] d₂.stableId = some d₂ by simp [findDevice]]
      simp [hre₂1]
    · intro n
      apply settled_no_corrections
      rw [hst]
      intro dd hdd hddid
      simp only [List.map_cons, List.map_nil, List.mem_singleton] at hdd
      rw [hre₂1] at hdd
      subst hdd
      exact ⟨rfl, rfl, Or.inr rfl⟩

/-- Concrete instantiation of `corrective_clamp_no_oscillation`: a
device at live volume 0.9 is clamped to 0.5 with exactly one corrective
call, and two injected echo notifications cause no further ones. -/
theorem corrective_clamp_no_oscillation_witness :
    (setDeviceMaxVolume ⟨[⟨"spk", "Speakers", mkRat 9 10, 1, none⟩], defaultSettings⟩
        "spk" (mkRat 1 2)).corrections = [("spk", min (1 : ℚ) (mkRat 1 2))]
    ∧ runCorrections (setDeviceMaxVolume
          ⟨[⟨"spk", "Speakers", mkRat 9 10, 1, none⟩], defaultSettings⟩
          "spk" (mkRat 1 2)).state
        (List.replicate 2 (AudioEvent.volumeChanged "spk" (min (1 : ℚ) (mkRat 1 2)))) = [] :=
  have h := corrective_clamp_no_oscillation
    ⟨[⟨"spk", "Speakers", mkRat 9 10, 1, none⟩], defaultSettings⟩ "spk"
    ⟨"spk", "Speakers", mkRat 9 10, 1, none⟩ (mkRat 1 2)
    (by decide) (by decide) (by decide) (by decide)
  ⟨h.1, h.2.2.1 2⟩

/-- C8: the two frontend variants are observationally equivalent at the
backend-command boundary: identical device- and global-ceiling command
sequences (with `volume = p / 100`), identical mount commands and
`devices-updated` subscription and handler, identical slider bounds and
displayed percentage; only the slider widget differs. -/
theorem frontend_variants_equivalent :
    (∀ deviceId p, AppRange.onChangeDeviceMaxVolume deviceId p
        = AppSlider.onChangeDeviceMaxVolume deviceId p)
    ∧ (∀ s p, AppRange.onChangeGlobalMaxVolume s p = AppSlider.onChangeGlobalMaxVolume s p)
    ∧ AppRange.mountCommands = AppSlider.mountCommands
    ∧ AppRange.sliderMin = AppSlider.sliderMin
    ∧ AppRange.sliderMax = AppSlider.sliderMax
    ∧ (∀ v, AppRange.volumePercentage v = AppSlider.volumePercentage v)
    ∧ (∀ prev payload, AppRange.onDevicesUpdated prev payload
        = AppSlider.onDevicesUpdated prev payload)
    ∧ (∀ deviceId p, AppRange.onChangeDeviceMaxVolume deviceId p
        = [Command.set_device_max_volume deviceId (jsDiv (p : ℚ) 100),
            Command.get_devices])
    ∧ (∀ s p, AppRange.onChangeGlobalMaxVolume s p
        = [Command.set_global_max_volume (jsDiv (p : ℚ) 100)]) :=
  ⟨fun _ _ => rfl, fun _ _ => rfl, rfl, rfl, rfl, fun _ => rfl, fun _ _ => rfl,
    fun _ _ => rfl, fun _ _ => rfl⟩

set_option maxRecDepth 8000 in
/-- Bounds of the binary64 value of `p / 100` over the slider range. -/
theorem jsDiv_slider_bounds :
    ∀ q ∈ Finset.Icc (1 : ℕ) 100,
      mkRat 1 100 ≤ jsDiv (q : ℚ) 100 ∧ jsDiv (q : ℚ) 100 ≤ 1 ∧ jsDiv (q : ℚ) 100 ≠ 0 := by
  decide

/-- C9: a slider change carries `volume = p / 100` for an integer
`p ∈ [1, 100]`, hence the sent volume lies in `[0.01, 1.0]`, is never
`0` (no full mute from the UI), and the backend's `InvalidArgument`
rejection is unreachable from slider input. -/
theorem slider_volume_in_range (deviceId : String) (p : ℤ) (hp1 : 1 ≤ p) (hp2 : p ≤ 100) :
    AppRange.onChangeDeviceMaxVolume deviceId p
      = [Command.set_device_max_volume deviceId (jsDiv (p : ℚ) 100), Command.get_devices]
    ∧ (1/100 : ℚ) ≤ jsDiv (p : ℚ) 100
    ∧ jsDiv (p : ℚ) 100 ≤ 1
    ∧ jsDiv (p : ℚ) 100 ≠ 0
    ∧ ∀ e : EngineState, (setDeviceMaxVolume e deviceId (jsDiv (p : ℚ) 100)).response
        ≠ FacadeResponse.err FacadeError.invalidArgument := by
  have hq : ((p.toNat : ℕ) : ℚ) = (p : ℚ) := by
    have h := Int.toNat_of_nonneg (le_trans (by norm_num) hp1)
    exact_mod_cast congrArg (fun z : ℤ => (z : ℚ)) h
  have hmem : p.toNat ∈ Finset.Icc (1 : ℕ) 100 := Finset.mem_Icc.mpr ⟨by omega, by omega⟩
  obtain ⟨k1, k2, k3⟩ := jsDiv_slider_bounds p.toNat hmem
  rw [hq] at k1 k2 k3
  have hmk : (mkRat 1 100 : ℚ) = 1/100 := by norm_num [mkRat]
  rw [hmk] at k1
  have hvalid : validFraction (jsDiv (p : ℚ) 100) = true :=
    (validFraction_iff _).mpr ⟨le_trans (by norm_num) k1, k2⟩
  exact ⟨rfl, k1, k2, k3,
    fun e => setDeviceMaxVolume_response_not_invalid e deviceId _ hvalid⟩

/-- Concrete instantiation of `slider_volume_in_range` at `p = 50`. -/
theorem slider_volume_in_range_witness :
    AppRange.onChangeDeviceMaxVolume "Speakers" 50
      = [Command.set_device_max_volume "Speakers" (jsDiv ((50 : ℤ) : ℚ) 100),
          Command.get_devices]
    ∧ (1/100 : ℚ) ≤ jsDiv ((50 : ℤ) : ℚ) 100
    ∧ jsDiv ((50 : ℤ) : ℚ) 100 ≤ 1
    ∧ jsDiv ((50 : ℤ) : ℚ) 100 ≠ 0
    ∧ (setDeviceMaxVolume ⟨[], defaultSettings⟩ "Speakers"
        (jsDiv ((50 : ℤ) : ℚ) 100)).response
        ≠ FacadeResponse.err FacadeError.invalidArgument :=
  have h := slider_volume_in_range "Speakers" 50 (by norm_num) (by norm_num)
  ⟨h.1, h.2.1, h.2.2.1, h.2.2.2.1, h.2.2.2.2 ⟨[], defaultSettings⟩⟩

/-- C10 counterexample: at slider value 29 the sent volume is the
binary64 value of `29 / 100`, and displaying it back through
`Math.floor(max_volume * 100)` yields 28, not 29. -/
theorem percent_roundtrip_fails_at_29 :
    AppRange.onChangeDeviceMaxVolume "Speakers" 29
      = [Command.set_device_max_volume "Speakers" (jsDiv ((29 : ℤ) : ℚ) 100),
          Command.get_devices]
    ∧ AppRange.volumePercentage (jsDiv ((29 : ℤ) : ℚ) 100) = 28
    ∧ AppRange.volumePercentage (jsDiv ((29 : ℤ) : ℚ) 100) ≠ 29 :=
  ⟨rfl, by decide, by decide⟩

set_option maxRecDepth 8000 in
/-- C10 amended: for every slider value `p ∈ [1, 100]`, if the backend
stores and returns exactly the sent binary64 volume `p / 100`, the
displayed percentage `Math.floor(max_volume * 100)` equals `p`, except
for `p ∈ \x7b29, 57, 58\x7d`, where binary64 rounding makes the product
fall just below `p` and the display reads `p - 1`. -/
theorem percent_roundtrip_amended (p : ℕ) (h1 : 1 ≤ p) (h2 : p ≤ 100) :
    AppRange.volumePercentage (jsDiv (p : ℚ) 100)
      = if p = 29 ∨ p = 57 ∨ p = 58 then (p : ℤ) - 1 else (p : ℤ) := by
  have key : ∀ q ∈ Finset.Icc (1 : ℕ) 100,
      AppRange.volumePercentage (jsDiv (q : ℚ) 100)
        = if q = 29 ∨ q = 57 ∨ q = 58 then (q : ℤ) - 1 else (q : ℤ) := by decide
  exact key p (Finset.mem_Icc.mpr ⟨h1, h2⟩)

/-- Concrete instantiation of `percent_roundtrip_amended` at `p = 50`,
where the round trip is exact. -/
theorem percent_roundtrip_amended_witness :
    AppRange.volumePercentage (jsDiv ((50 : ℕ) : ℚ) 100)
      = if (50 : ℕ) = 29 ∨ (50 : ℕ) = 57 ∨ (50 : ℕ) = 58
        then ((50 : ℕ) : ℤ) - 1 else ((50 : ℕ) : ℤ) :=
  percent_roundtrip_amended 50 (by norm_num) (by norm_num)
